import Mathlib

/-!
Shallow embedding of `src/scripts/benchmark-model-loading.py`.

The script launches one vLLM server process per loading strategy, polls
`http://localhost:<port>/health` once a second until the endpoint answers
with status code 200 or a 600-second timeout expires, tears the process
down (terminate, wait up to 10 seconds, kill on expiry), and finally
compares the elapsed times of the "standard" and "Run:ai Streamer"
strategies, choosing the process exit code from the candidate result.

External effects are modelled by oracles:
* the health endpoint is a function `Nat → ReqOutcome` giving the outcome
  and the duration of the i-th `requests.get` call;
* process launch (`subprocess.Popen`) either succeeds (`launchOk = true`)
  or raises (e.g. a missing binary);
* `proc.wait(timeout=10)` either returns within the grace period or
  raises `TimeoutExpired` (flag `exitsWithinGrace`), in which case the
  script escalates to `proc.kill()`.

Time is rational seconds measured from the start of `wait_for_health`.
The explicit `fuel` argument only bounds the unrolling of the polling
loop; the theorems below show any sufficiently large fuel gives the
loop's real result. Python `Optional[float]` becomes `Option ℚ`; an
uncaught Python exception becomes `Except.error ()`, after which the
CPython interpreter exits with status 1.
-/

namespace Benchmark

/-- Outcome of one `requests.get(url, timeout=1)` call, together with the
time `d` (in seconds) the call took. `reqTimeout` is `requests.Timeout`,
which consumes the full per-request timeout of 1 second. -/
inductive ReqOutcome where
  | response (status : Nat) (d : ℚ)
  | connError (d : ℚ)
  | reqTimeout
deriving DecidableEq

/-- Duration in seconds of one request outcome. -/
def dur : ReqOutcome → ℚ
  | .response _ d => d
  | .connError d => d
  | .reqTimeout => 1

/-- Line 36 of the script: a poll reports ready exactly when
`resp.status_code == 200`; `requests.ConnectionError` and
`requests.Timeout` are caught and ignored. -/
def isReady : ReqOutcome → Bool
  | .response s _ => s == 200
  | _ => false

/-- The polling loop of `wait_for_health` (lines 33-45). State: remaining
`fuel`, index `i` of the next request, current time `t` since start. On
success it returns `(some elapsed, finishTime)` where `elapsed` is read
after the successful request returns; on timeout `(none, finishTime)`.
The outer `none` means the fuel bound was exhausted (a model artifact:
each iteration advances `t` by at least the 1-second sleep, so any
`fuel > timeout` is enough). -/
def waitAux (oracle : Nat → ReqOutcome) (timeout : ℚ) :
    Nat → Nat → ℚ → Option (Option ℚ × ℚ)
  | 0, _, _ => none
  | fuel + 1, i, t =>
    if t < timeout then
      if isReady (oracle i) then
        some (some (t + dur (oracle i)), t + dur (oracle i))
      else
        waitAux oracle timeout fuel (i + 1) (t + dur (oracle i) + 1)
    else
      some (none, t)

/-- `wait_for_health(port, timeout)` (lines 27-45): poll the health
endpoint starting at time 0. The port only selects the URL and is
absorbed into the oracle. -/
def wait_for_health (oracle : Nat → ReqOutcome) (timeout : ℚ) (fuel : Nat) :
    Option (Option ℚ × ℚ) :=
  waitAux oracle timeout fuel 0 0

deriving instance DecidableEq for Except

/-- Environment of one strategy run: whether `subprocess.Popen` succeeds,
the health-endpoint oracle for the spawned server, and whether the
process exits within the 10-second grace period of `proc.wait`. -/
structure ProcEnv where
  launchOk : Bool
  oracle : Nat → ReqOutcome
  exitsWithinGrace : Bool

/-- `test_standard_loading` (lines 48-88). Returns
`(pythonResult, teardownCount, killed)`:
* `pythonResult` is `.ok elapsed` when the function returns the value of
  `wait_for_health`, and `.error ()` when `Popen` raises (nothing in the
  function catches a launch exception, so it propagates to the caller);
* `teardownCount` counts executions of the teardown block
  `proc.terminate(); try proc.wait(10) except TimeoutExpired: proc.kill()`
  (lines 77-81);
* `killed` records whether the escalation to `proc.kill()` fired, i.e.
  whether `proc.wait(10)` raised `TimeoutExpired`; that exception is the
  only teardown failure and is swallowed.
The outer `none` again only signals exhausted fuel. -/
def test_standard_loading (env : ProcEnv) (fuel : Nat) :
    Option (Except Unit (Option ℚ) × Nat × Bool) :=
  if env.launchOk then
    match wait_for_health env.oracle 600 fuel with
    | some (elapsed, _) => some (Except.ok elapsed, 1, !env.exitsWithinGrace)
    | none => none
  else
    some (Except.error (), 0, false)

/-- `test_runai_loading` (lines 91-135): apart from the command line and
port it launches, its control flow is line-for-line the same as
`test_standard_loading`, including the uncaught `Popen` exception and
the single teardown block (lines 124-128). -/
def test_runai_loading (env : ProcEnv) (fuel : Nat) :
    Option (Except Unit (Option ℚ) × Nat × Bool) :=
  if env.launchOk then
    match wait_for_health env.oracle 600 fuel with
    | some (elapsed, _) => some (Except.ok elapsed, 1, !env.exitsWithinGrace)
    | none => none
  else
    some (Except.error (), 0, false)

/-- Python truthiness of an `Optional[float]`: `None` and `0.0` are
falsy, every other float is truthy. Used by `if standard_time:`,
`if runai_time:`, `if standard_time and runai_time:` and
`if runai_time and runai_time < 30:` in `main`. -/
def pyTruthy : Option ℚ → Bool
  | none => false
  | some x => if x = 0 then false else true

/-- Which closing message of the results block (lines 205-210) is
printed when a speedup was computed. -/
inductive TipMsg where
  | excellent
  | good
  | tryHigher
deriving DecidableEq

/-- Message selection of lines 205-210: `runai_time < 10`, else
`runai_time < 20`, else the "try increasing concurrency" tip. -/
def tipFor (rt : ℚ) : TipMsg :=
  if rt < 10 then TipMsg.excellent
  else if rt < 20 then TipMsg.good
  else TipMsg.tryHigher

/-- The guarded computation of lines 194-210: only when
`standard_time and runai_time` is truthy (both non-`None` and nonzero)
does `main` compute `speedup`, `time_saved`, the daily and monthly
extrapolations, and pick a closing message. -/
def resultsBlock (standard_time runai_time : Option ℚ) :
    Option (ℚ × ℚ × ℚ × ℚ × TipMsg) :=
  match standard_time, runai_time with
  | some st, some rt =>
    if st = 0 ∨ rt = 0 then none
    else some (st / rt, st - rt, (st - rt) * 100 / 60, (st - rt) * 3000 / 3600, tipFor rt)
  | _, _ => none

/-- Exit-code selection of lines 214-218:
`if runai_time and runai_time < 30: sys.exit(0) else: sys.exit(1)`. -/
def exitCodeOf (runai_time : Option ℚ) : Nat :=
  match runai_time with
  | some rt => if rt ≠ 0 ∧ rt < 30 then 0 else 1
  | none => 1

/-- Everything `main` derives and prints in its results section
(lines 180-218), plus the raw measured values it holds in
`standard_time` and `runai_time`. A display of `none` means the FAILED
line was printed for that strategy (lines 184-192). -/
structure MainOutcome where
  standardTime : Option ℚ
  runaiTime : Option ℚ
  standardDisplay : Option ℚ
  runaiDisplay : Option ℚ
  speedup : Option ℚ
  timeSaved : Option ℚ
  dailyMinutes : Option ℚ
  monthlyHours : Option ℚ
  tip : Option TipMsg
  exitCode : Nat
deriving DecidableEq

/-- The results section of `main` (lines 180-218) as a pure function of
the two measured times. -/
def report (standard_time runai_time : Option ℚ) : MainOutcome :=
  { standardTime := standard_time
    runaiTime := runai_time
    standardDisplay := if pyTruthy standard_time then standard_time else none
    runaiDisplay := if pyTruthy runai_time then runai_time else none
    speedup := (resultsBlock standard_time runai_time).map (fun p => p.1)
    timeSaved := (resultsBlock standard_time runai_time).map (fun p => p.2.1)
    dailyMinutes := (resultsBlock standard_time runai_time).map (fun p => p.2.2.1)
    monthlyHours := (resultsBlock standard_time runai_time).map (fun p => p.2.2.2.1)
    tip := (resultsBlock standard_time runai_time).map (fun p => p.2.2.2.2)
    exitCode := exitCodeOf runai_time }

/-- Number of operating-system processes a `Popen` call in the given
environment creates: 1 on success, 0 when `Popen` raises. -/
def spawnOf (env : ProcEnv) : Nat :=
  if env.launchOk then 1 else 0

/-- The body of `main` after argument parsing (lines 167-218), returning
the Python-level result (a `MainOutcome`, or the uncaught exception that
aborts `main`) together with the number of server processes spawned.
With `--skip-standard`, `standard_time` keeps its initial `None`
(line 167). An exception from either test aborts `main` before the
results section runs. -/
def mainRun (skip : Bool) (stdEnv runaiEnv : ProcEnv) (fuel : Nat) :
    Option (Except Unit MainOutcome × Nat) :=
  if skip then
    match test_runai_loading runaiEnv fuel with
    | none => none
    | some (Except.error e, _, _) => some (Except.error e, spawnOf runaiEnv)
    | some (Except.ok rt, _, _) => some (Except.ok (report none rt), spawnOf runaiEnv)
  else
    match test_standard_loading stdEnv fuel with
    | none => none
    | some (Except.error e, _, _) => some (Except.error e, spawnOf stdEnv)
    | some (Except.ok st, _, _) =>
      match test_runai_loading runaiEnv fuel with
      | none => none
      | some (Except.error e, _, _) =>
        some (Except.error e, spawnOf stdEnv + spawnOf runaiEnv)
      | some (Except.ok rt, _, _) =>
        some (Except.ok (report st rt), spawnOf stdEnv + spawnOf runaiEnv)

/-- The parsed command line (lines 139-158): required positional
`model_path`, `--concurrency` of type int defaulting to 32, and the
`--skip-standard` flag. -/
structure Args where
  model_path : String
  concurrency : Int
  skip_standard : Bool
deriving DecidableEq

/-- Whether a command-line token begins with the option prefix
character `-` (argparse's test for option-looking tokens). -/
def isOptionToken (a : String) : Bool :=
  match a.data with
  | [] => false
  | c :: _ => c == '-'

/-- Value of a nonempty decimal digit string, `none` on any non-digit. -/
def digitsVal : List Char → Nat → Option Nat
  | [], acc => some acc
  | c :: cs, acc =>
    if c.isDigit then digitsVal cs (acc * 10 + (c.toNat - 48)) else none

/-- Python `int(s)` restricted to an optional minus sign followed by one
or more decimal digits — the shapes argparse's negative-number matcher
recognises; anything else is a parse failure. -/
def pyInt? (s : String) : Option Int :=
  match s.data with
  | [] => none
  | '-' :: [] => none
  | '-' :: c :: cs => (digitsVal (c :: cs) 0).map (fun n => -(n : Int))
  | cs => (digitsVal cs 0).map (fun n => (n : Int))

/-- One pass of the argparse grammar of lines 139-158. Any parse failure
makes argparse print a usage message and call `sys.exit(2)`, hence
`.error 2`. A token is treated as an option when it starts with a dash
and is not a negative number; the auto-generated `-h`/`--help` flags are
outside the modelled grammar. Note an empty string is a perfectly
acceptable value for the `model_path` positional. -/
def parseArgsAux : List String → Option String → Int → Bool → Except Nat Args
  | [], none, _, _ => Except.error 2
  | [], some mp, c, sk => Except.ok ⟨mp, c, sk⟩
  | "--skip-standard" :: rest, mp, c, _ => parseArgsAux rest mp c true
  | "--concurrency" :: v :: rest, mp, _, sk =>
    match pyInt? v with
    | some n => parseArgsAux rest mp n sk
    | none => Except.error 2
  | "--concurrency" :: [], _, _, _ => Except.error 2
  | a :: rest, mp, c, sk =>
    if isOptionToken a && (pyInt? a).isNone then Except.error 2
    else
      match mp with
      | none => parseArgsAux rest (some a) c sk
      | some _ => Except.error 2

/-- `parser.parse_args(argv)` with the defaults of lines 146-156. -/
def parseArgs (argv : List String) : Except Nat Args :=
  parseArgsAux argv none 32 false

/-- How one invocation of the program terminates: an argparse usage
error (exit before any process is spawned), an uncaught Python exception
(the interpreter exits with status 1), or a completed run ending in
`sys.exit` with the code chosen on lines 214-218. -/
inductive ProgTerm where
  | usageError (code : Nat)
  | crashed
  | finished (o : MainOutcome)
deriving DecidableEq

/-- Operating-system exit status of a terminated invocation. -/
def progExitCode : ProgTerm → Nat
  | .usageError c => c
  | .crashed => 1
  | .finished o => o.exitCode

/-- A whole invocation of the script (function `main`, lines 138-218):
parse the command line, then run the benchmark body. Returns the
termination mode together with the number of server processes spawned. -/
def fullMain (argv : List String) (stdEnv runaiEnv : ProcEnv) (fuel : Nat) :
    Option (ProgTerm × Nat) :=
  match parseArgs argv with
  | Except.error c => some (ProgTerm.usageError c, 0)
  | Except.ok args =>
    match mainRun args.skip_standard stdEnv runaiEnv fuel with
    | none => none
    | some (Except.error _, n) => some (ProgTerm.crashed, n)
    | some (Except.ok o, n) => some (ProgTerm.finished o, n)

/-- One non-ready poll just advances the loop: request duration, then the
1-second sleep. -/
theorem waitAux_step (oracle : Nat → ReqOutcome) (timeout : ℚ) (fuel i : Nat) (t : ℚ)
    (hnr : isReady (oracle i) = false) (hlt : t < timeout) :
    waitAux oracle timeout (fuel + 1) i t
      = waitAux oracle timeout fuel (i + 1) (t + dur (oracle i) + 1) := by
  simp [waitAux, hlt, hnr]

/-- A run whose very first poll answers ready returns after that single
request: elapsed time is the duration of the first request. -/
theorem test_standard_first_ready (o : Nat → ReqOutcome) (g : Bool) (fuel : Nat)
    (h : isReady (o 0) = true) :
    test_standard_loading ⟨true, o, g⟩ (fuel + 1)
      = some (Except.ok (some (dur (o 0))), 1, !g) := by
  norm_num [test_standard_loading, wait_for_health, waitAux, h]

/-- If no poll ever succeeds and request durations lie in `[0, 1]`, the
loop returns `none` (timed out) at a time `u` with `t ≤ u < timeout + 2`,
provided the fuel dominates the remaining time. -/
theorem waitAux_never_ready (oracle : Nat → ReqOutcome) (timeout : ℚ)
    (hno : ∀ i, isReady (oracle i) = false)
    (hd : ∀ i, 0 ≤ dur (oracle i) ∧ dur (oracle i) ≤ 1) :
    ∀ (fuel i : Nat) (t : ℚ), timeout + 1 ≤ t + fuel → 1 ≤ fuel → t < timeout + 2 →
      ∃ u, waitAux oracle timeout fuel i t = some (none, u) ∧ t ≤ u ∧ u < timeout + 2 := by
  intro fuel
  induction fuel with
  | zero => intro i t _ h1 _; exact absurd h1 (by norm_num)
  | succ n ih =>
    intro i t hle _ hlt
    by_cases hc : t < timeout
    · have hnpos : 1 ≤ n := by
        by_contra hn
        have hn0 : n = 0 := by omega
        subst hn0
        have : timeout + 1 ≤ t + 1 := by push_cast at hle; linarith
        linarith
      rw [waitAux_step oracle timeout n i t (hno i) hc]
      have hd0 := (hd i).1
      have hd1 := (hd i).2
      have hrec := ih (i + 1) (t + dur (oracle i) + 1)
        (by push_cast at hle ⊢; linarith) hnpos (by linarith)
      obtain ⟨u, hu, htu, hub⟩ := hrec
      exact ⟨u, hu, by linarith, hub⟩
    · refine ⟨t, ?_, le_refl t, hlt⟩
      simp [waitAux, hc]

/-- Claim C3: for every positive timeout bound `T` (and oracle whose
request durations respect the 1-second per-request timeout), if the
readiness endpoint never returns a success response, the polling loop
terminates (any fuel above `T` suffices, and the result no longer
depends on it), the run is reported as timed out with a null elapsed
time, and the call returns at a time `u < T + 1 + 1` — at most one
polling interval plus one per-request timeout after `T`. -/
theorem c3_timeout_terminates (oracle : Nat → ReqOutcome) (timeout : ℚ) (fuel : Nat)
    (h0 : 0 < timeout)
    (hno : ∀ i, isReady (oracle i) = false)
    (hd : ∀ i, 0 ≤ dur (oracle i) ∧ dur (oracle i) ≤ 1)
    (hfuel : timeout + 1 ≤ (fuel : ℚ)) :
    ∃ u, wait_for_health oracle timeout fuel = some (none, u) ∧ u < timeout + 1 + 1 := by
  have h1 : 1 ≤ fuel := by
    by_contra hn
    have : fuel = 0 := by omega
    subst this
    push_cast at hfuel
    linarith
  obtain ⟨u, hu, _, hub⟩ := waitAux_never_ready oracle timeout hno hd fuel 0 0
    (by simpa using hfuel) h1 (by linarith)
  exact ⟨u, hu, by linarith⟩

/-- Witness for C3: an endpoint that always refuses connections
instantly, with a 3-second timeout and fuel 4, times out with a null
elapsed time before 5 seconds. -/
theorem c3_timeout_terminates_witness :
    ∃ u, wait_for_health (fun _ => ReqOutcome.connError 0) 3 4 = some (none, u) ∧ u < 3 + 1 + 1 :=
  c3_timeout_terminates (fun _ => ReqOutcome.connError 0) 3 4 (by norm_num)
    (fun _ => rfl) (fun _ => by constructor <;> norm_num [dur]) (by norm_num)

/-- Claim C2 fails as stated: a 204 No Content response is a 2xx success
status, yet the poll does not report ready on it (the code tests
`status_code == 200` exactly). -/
theorem c2_counterexample :
    (200 ≤ 204 ∧ 204 < 300) ∧ isReady (ReqOutcome.response 204 0) = false :=
  ⟨⟨by norm_num, by norm_num⟩, rfl⟩

/-- Claim C2 (amended): the poll reports ready exactly on a response
with status code exactly 200; any other status (including other 2xx
codes), a connection error, or a request timeout is treated as
not-yet-ready, and in those cases, while the deadline has not passed,
the loop polls again after the request duration plus the 1-second
sleep. -/
theorem c2_ready_iff_200 :
    (∀ (s : Nat) (d : ℚ), isReady (ReqOutcome.response s d) = true ↔ s = 200)
    ∧ (∀ d : ℚ, isReady (ReqOutcome.connError d) = false)
    ∧ isReady ReqOutcome.reqTimeout = false
    ∧ (∀ (oracle : Nat → ReqOutcome) (timeout : ℚ) (fuel i : Nat) (t : ℚ),
        isReady (oracle i) = false → t < timeout →
          waitAux oracle timeout (fuel + 1) i t
            = waitAux oracle timeout fuel (i + 1) (t + dur (oracle i) + 1)) := by
  refine ⟨?_, fun _ => rfl, rfl, waitAux_step⟩
  intro s d
  simp [isReady]

/-- Witness for C2 (amended): a 200 response is accepted as ready. -/
theorem c2_ready_iff_200_witness : isReady (ReqOutcome.response 200 0) = true :=
  (c2_ready_iff_200.1 200 0).mpr rfl

/-- The two strategy tests have the same control flow; they differ only
in the launch command and port, both absorbed into the environment. -/
theorem test_runai_eq_standard : test_runai_loading = test_standard_loading := rfl

/-- When `Popen` succeeds, `test_standard_loading` executes the teardown
block exactly once and returns normally (no exception), whatever the
poll outcome was. -/
theorem test_standard_loading_launchOk (env : ProcEnv) (fuel : Nat)
    (r : Except Unit (Option ℚ)) (n : Nat) (k : Bool)
    (hl : env.launchOk = true)
    (h : test_standard_loading env fuel = some (r, n, k)) :
    n = 1 ∧ ∃ e, r = Except.ok e := by
  simp only [test_standard_loading, hl, if_true] at h
  cases hw : wait_for_health env.oracle 600 fuel with
  | none => rw [hw] at h; cases h
  | some p =>
    obtain ⟨elapsed, fin⟩ := p
    rw [hw] at h
    simp only [Option.some.injEq, Prod.mk.injEq] at h
    obtain ⟨h1, h2, _⟩ := h
    exact ⟨h2.symm, elapsed, h1.symm⟩

/-- The flag deciding whether `proc.wait(10)` raises `TimeoutExpired`
(and `proc.kill()` must fire) has no influence on the value the test
returns. -/
theorem test_standard_loading_grace_irrelevant (l : Bool) (o : Nat → ReqOutcome)
    (g1 g2 : Bool) (fuel : Nat) :
    (test_standard_loading ⟨l, o, g1⟩ fuel).map (fun p => p.1)
      = (test_standard_loading ⟨l, o, g2⟩ fuel).map (fun p => p.1) := by
  cases l with
  | false => rfl
  | true =>
    simp only [test_standard_loading]
    cases hw : wait_for_health o 600 fuel with
    | none => rfl
    | some p => obtain ⟨elapsed, fin⟩ := p; rfl

/-- Claim C4 fails as stated: when `Popen` itself raises (for instance a
missing `python` binary), the exception propagates and the teardown block
is never reached — zero teardown attempts, not exactly one. -/
theorem c4_counterexample :
    test_standard_loading ⟨false, fun _ => ReqOutcome.connError 0, true⟩ 1
      = some (Except.error (), 0, false) ∧ (0 : Nat) ≠ 1 :=
  ⟨rfl, by norm_num⟩

/-- Claim C4 (amended): in every run in which the server process was
actually started, the teardown block runs exactly once — both when the
run ended ready and when it timed out — and a teardown failure (the
grace-period wait expiring, answered by `proc.kill()`) never changes the
returned benchmark outcome. When the process fails to start, the launch
exception propagates before any teardown is attempted. -/
theorem c4_teardown_once :
    (∀ (env : ProcEnv) (fuel : Nat) (r : Except Unit (Option ℚ)) (n : Nat) (k : Bool),
        env.launchOk = true → test_standard_loading env fuel = some (r, n, k) →
          n = 1 ∧ ∃ e, r = Except.ok e)
    ∧ (∀ (env : ProcEnv) (fuel : Nat) (r : Except Unit (Option ℚ)) (n : Nat) (k : Bool),
        env.launchOk = true → test_runai_loading env fuel = some (r, n, k) →
          n = 1 ∧ ∃ e, r = Except.ok e)
    ∧ (∀ (l : Bool) (o : Nat → ReqOutcome) (g1 g2 : Bool) (fuel : Nat),
        (test_standard_loading ⟨l, o, g1⟩ fuel).map (fun p => p.1)
          = (test_standard_loading ⟨l, o, g2⟩ fuel).map (fun p => p.1)
        ∧ (test_runai_loading ⟨l, o, g1⟩ fuel).map (fun p => p.1)
          = (test_runai_loading ⟨l, o, g2⟩ fuel).map (fun p => p.1))
    ∧ (∀ (env : ProcEnv) (fuel : Nat),
        env.launchOk = false → test_standard_loading env fuel = some (Except.error (), 0, false)) := by
  refine ⟨test_standard_loading_launchOk, ?_, ?_, ?_⟩
  · intro env fuel r n k hl h
    exact test_standard_loading_launchOk env fuel r n k hl (test_runai_eq_standard ▸ h)
  · intro l o g1 g2 fuel
    exact ⟨test_standard_loading_grace_irrelevant l o g1 g2 fuel,
      test_runai_eq_standard ▸ test_standard_loading_grace_irrelevant l o g1 g2 fuel⟩
  · intro env fuel hl
    simp [test_standard_loading, hl]

/-- Witness for C4 (amended): a run that became ready on the first poll
tears down exactly once and returns normally. -/
theorem c4_teardown_once_witness :
    (1 : Nat) = 1 ∧ ∃ e, (Except.ok (some ((0 : ℚ) + 0)) : Except Unit (Option ℚ)) = Except.ok e :=
  c4_teardown_once.1 ⟨true, fun _ => ReqOutcome.response 200 0, true⟩ 1
    (Except.ok (some (0 + 0))) 1 false rfl rfl

/-- Every normal (non-exception) outcome of `mainRun` is the report the
results section builds from the two measured times, and those raw times
are recorded in it. -/
theorem mainRun_ok_report (skip : Bool) (stdEnv runaiEnv : ProcEnv) (fuel : Nat)
    (o : MainOutcome) (m : Nat)
    (h : mainRun skip stdEnv runaiEnv fuel = some (Except.ok o, m)) :
    ∃ st rt, o = report st rt := by
  cases skip with
  | true =>
    simp only [mainRun, if_true] at h
    cases hr : test_runai_loading runaiEnv fuel with
    | none => rw [hr] at h; cases h
    | some p =>
      obtain ⟨re, nn, kk⟩ := p
      rw [hr] at h
      cases re with
      | error e => cases h
      | ok rt =>
        simp only [Option.some.injEq, Prod.mk.injEq, Except.ok.injEq] at h
        exact ⟨none, rt, h.1.symm⟩
  | false =>
    simp only [mainRun, if_false, Bool.false_eq_true] at h
    cases hs : test_standard_loading stdEnv fuel with
    | none => rw [hs] at h; cases h
    | some p =>
      obtain ⟨se, sn, sk⟩ := p
      rw [hs] at h
      cases se with
      | error e => cases h
      | ok st =>
        cases hr : test_runai_loading runaiEnv fuel with
        | none => rw [hr] at h; cases h
        | some q =>
          obtain ⟨re, rn, rk⟩ := q
          rw [hr] at h
          cases re with
          | error e => cases h
          | ok rt =>
            simp only [Option.some.injEq, Prod.mk.injEq, Except.ok.injEq] at h
            exact ⟨st, rt, h.1.symm⟩

/-- When both `Popen` calls succeed, `mainRun` cannot end in an
exception. -/
theorem mainRun_launchOk (skip : Bool) (stdEnv runaiEnv : ProcEnv) (fuel : Nat)
    (r : Except Unit MainOutcome) (n : Nat)
    (hs : stdEnv.launchOk = true) (hr : runaiEnv.launchOk = true)
    (h : mainRun skip stdEnv runaiEnv fuel = some (r, n)) :
    ∃ o, r = Except.ok o := by
  cases skip with
  | true =>
    simp only [mainRun, if_true] at h
    cases hrt : test_runai_loading runaiEnv fuel with
    | none => rw [hrt] at h; cases h
    | some p =>
      obtain ⟨re, nn, kk⟩ := p
      obtain ⟨_, e, he⟩ := test_standard_loading_launchOk runaiEnv fuel re nn kk hr
        (test_runai_eq_standard ▸ hrt)
      subst he
      rw [hrt] at h
      simp only [Option.some.injEq, Prod.mk.injEq] at h
      exact ⟨report none e, h.1.symm⟩
  | false =>
    simp only [mainRun, if_false, Bool.false_eq_true] at h
    cases hst : test_standard_loading stdEnv fuel with
    | none => rw [hst] at h; cases h
    | some p =>
      obtain ⟨se, sn, sk⟩ := p
      obtain ⟨_, es, hes⟩ := test_standard_loading_launchOk stdEnv fuel se sn sk hs hst
      subst hes
      rw [hst] at h
      cases hrt : test_runai_loading runaiEnv fuel with
      | none => rw [hrt] at h; cases h
      | some q =>
        obtain ⟨re, rn, rk⟩ := q
        obtain ⟨_, er, her⟩ := test_standard_loading_launchOk runaiEnv fuel re rn rk hr
          (test_runai_eq_standard ▸ hrt)
        subst her
        rw [hrt] at h
        simp only [Option.some.injEq, Prod.mk.injEq] at h
        exact ⟨report es er, h.1.symm⟩

/-- Claim C5 fails as stated: a baseline whose `Popen` raises is not
reported as `process_error` — nothing catches the exception, so `main`
aborts before the candidate strategy is ever benchmarked, and the whole
invocation crashes (interpreter exit status 1). -/
theorem c5_counterexample :
    fullMain ["model"] ⟨false, fun _ => ReqOutcome.connError 0, true⟩
        ⟨true, fun _ => ReqOutcome.response 200 0, true⟩ 1
      = some (ProgTerm.crashed, 0) := by decide

/-- Claim C5 (amended): a server process that starts but never becomes
ready is reported with a null elapsed time and no exception, and such a
failed (null) baseline does not abort the benchmarking of the candidate
— its result still enters the comparison report. But a process that
fails to start raises out of the test uncaught, so there is no
`process_error` status: that failure aborts the whole comparison. -/
theorem c5_process_failure :
    (∀ (env : ProcEnv) (fuel : Nat),
        env.launchOk = true →
        (∀ i, isReady (env.oracle i) = false) →
        (∀ i, 0 ≤ dur (env.oracle i) ∧ dur (env.oracle i) ≤ 1) →
        600 + 1 ≤ (fuel : ℚ) →
          ∃ n k, test_standard_loading env fuel = some (Except.ok none, n, k))
    ∧ (∀ (stdEnv runaiEnv : ProcEnv) (fuel n2 : Nat) (k : Bool)
          (rt : Option ℚ) (n2' : Nat) (k2 : Bool),
        test_standard_loading stdEnv fuel = some (Except.ok none, n2, k) →
        test_runai_loading runaiEnv fuel = some (Except.ok rt, n2', k2) →
          mainRun false stdEnv runaiEnv fuel
            = some (Except.ok (report none rt), spawnOf stdEnv + spawnOf runaiEnv))
    ∧ (∀ (env : ProcEnv) (fuel : Nat),
        env.launchOk = false →
          test_standard_loading env fuel = some (Except.error (), 0, false)) := by
  refine ⟨?_, ?_, ?_⟩
  · intro env fuel hl hno hd hfuel
    have h1 : 1 ≤ fuel := by
      by_contra hn
      have : fuel = 0 := by omega
      subst this
      push_cast at hfuel
      linarith
    obtain ⟨u, hu, _, _⟩ := waitAux_never_ready env.oracle 600 hno hd fuel 0 0
      (by simpa using hfuel) h1 (by norm_num)
    refine ⟨1, !env.exitsWithinGrace, ?_⟩
    simp [test_standard_loading, hl, wait_for_health] at hu ⊢
    rw [hu]
  · intro stdEnv runaiEnv fuel n2 k rt n2' k2 h1 h2
    simp [mainRun, h1, h2]
  · intro env fuel hl
    simp [test_standard_loading, hl]

/-- Witness for C5 (amended): a started baseline that never answers its
health endpoint yields a null elapsed time without raising. -/
theorem c5_process_failure_witness :
    ∃ n k, test_standard_loading ⟨true, fun _ => ReqOutcome.connError 0, true⟩ 601
      = some (Except.ok none, n, k) :=
  c5_process_failure.1 ⟨true, fun _ => ReqOutcome.connError 0, true⟩ 601 rfl
    (fun _ => rfl) (fun _ => by constructor <;> norm_num [dur]) (by norm_num)

/-- Claim C6 fails as stated: a baseline elapsed time of exactly 0.0 is
non-null, yet Python truthiness makes `if standard_time and runai_time:`
skip the whole computation — no speedup is produced at all, instead of
the claimed `0.0 / 9.0`. -/
theorem c6_counterexample :
    (report (some 0) (some 9)).speedup = none
    ∧ (report (some (0 : ℚ)) (some 9)).speedup ≠ some ((0 : ℚ) / 9) := by
  refine ⟨rfl, ?_⟩
  intro h
  cases h.symm.trans (rfl : (report (some (0 : ℚ)) (some 9)).speedup = none)

/-- Claim C6 (amended): for every pair of run results whose elapsed
times are non-null and nonzero, the report has
`speedup = baseline / candidate`, `time_saved = baseline - candidate`,
and the extrapolations `time_saved * 100 / 60` minutes per day and
`time_saved * 3000 / 3600` hours per month; in particular 45.0 s versus
9.0 s gives speedup 5.0, 36.0 s saved and 60.0 minutes saved daily (see
the witness). -/
theorem c6_speedup_formula (st rt : ℚ) (hst : st ≠ 0) (hrt : rt ≠ 0) :
    (report (some st) (some rt)).speedup = some (st / rt)
    ∧ (report (some st) (some rt)).timeSaved = some (st - rt)
    ∧ (report (some st) (some rt)).dailyMinutes = some ((st - rt) * 100 / 60)
    ∧ (report (some st) (some rt)).monthlyHours = some ((st - rt) * 3000 / 3600) := by
  simp [report, resultsBlock, hst, hrt]

/-- Witness for C6 (amended): the end-to-end scenario of the spec —
baseline 45.0 s, candidate 9.0 s — yields speedup 5.0, 36.0 s saved per
load, and 60.0 minutes saved per day at 100 launches. -/
theorem c6_speedup_formula_witness :
    (45 : ℚ) ≠ 0 ∧ (9 : ℚ) ≠ 0
    ∧ (report (some 45) (some 9)).speedup = some 5
    ∧ (report (some 45) (some 9)).timeSaved = some 36
    ∧ (report (some 45) (some 9)).dailyMinutes = some 60 := by
  have h := c6_speedup_formula 45 9 (by norm_num) (by norm_num)
  refine ⟨by norm_num, by norm_num, ?_, ?_, ?_⟩
  · rw [h.1]; norm_num
  · rw [h.2.1]; norm_num
  · rw [h.2.2.1]; norm_num

/-- Claim C7: whenever either measured time is null, the comparison is
indeterminate — no speedup, time saved or extrapolation is computed —
while both raw per-strategy results still appear in the report. -/
theorem c7_null_indeterminate (st rt : Option ℚ) (h : st = none ∨ rt = none) :
    (report st rt).speedup = none ∧ (report st rt).timeSaved = none
    ∧ (report st rt).dailyMinutes = none ∧ (report st rt).monthlyHours = none
    ∧ (report st rt).standardTime = st ∧ (report st rt).runaiTime = rt := by
  rcases h with h | h
  · subst h
    cases rt <;> simp [report, resultsBlock]
  · subst h
    cases st <;> simp [report, resultsBlock]

/-- Witness for C7: a ready baseline at 45.0 s against a timed-out
candidate (null) yields no speedup, only the two results. -/
theorem c7_null_indeterminate_witness :
    (report (some 45) none).speedup = none
    ∧ (report (some 45) none).timeSaved = none
    ∧ (report (some 45) none).dailyMinutes = none
    ∧ (report (some 45) none).monthlyHours = none
    ∧ (report (some 45) none).standardTime = some 45
    ∧ (report (some 45) none).runaiTime = none :=
  c7_null_indeterminate (some 45) none (Or.inr rfl)

/-- Claim C8: with both elapsed times non-null and positive, swapping
baseline and candidate inverts the speedup ratio. -/
theorem c8_speedup_reciprocal (a b : ℚ) (ha : 0 < a) (hb : 0 < b) :
    ∃ s t, (report (some a) (some b)).speedup = some s
      ∧ (report (some b) (some a)).speedup = some t
      ∧ s = 1 / t ∧ s * t = 1 := by
  have ha' := ne_of_gt ha
  have hb' := ne_of_gt hb
  refine ⟨a / b, b / a, ?_, ?_, ?_, ?_⟩
  · simp [report, resultsBlock, ha', hb']
  · simp [report, resultsBlock, ha', hb']
  · rw [one_div_div]
  · field_simp

/-- Witness for C8: at 45.0 s versus 9.0 s the two speedups are defined
and reciprocal. -/
theorem c8_speedup_reciprocal_witness :
    ∃ s t, (report (some (45 : ℚ)) (some 9)).speedup = some s
      ∧ (report (some (9 : ℚ)) (some 45)).speedup = some t
      ∧ s = 1 / t ∧ s * t = 1 :=
  c8_speedup_reciprocal 45 9 (by norm_num) (by norm_num)

/-- Claim C10: a run whose readiness check succeeded with a measured
elapsed time of exactly 0.0 is treated as a failure at the public
interface: its summary line shows FAILED, no speedup or time saved is
computed, and as the candidate it makes the program exit with code 1 —
despite the elapsed time being non-null and under the 30-second
threshold. -/
theorem c10_zero_elapsed_failure (skip : Bool) (stdEnv runaiEnv : ProcEnv) (fuel : Nat)
    (n : Nat) (k : Bool) (o : MainOutcome) (m : Nat)
    (hr : test_runai_loading runaiEnv fuel = some (Except.ok (some 0), n, k))
    (hm : mainRun skip stdEnv runaiEnv fuel = some (Except.ok o, m)) :
    o.runaiTime = some 0 ∧ o.runaiDisplay = none ∧ o.speedup = none
    ∧ o.timeSaved = none ∧ o.exitCode = 1 ∧ (0 : ℚ) < 30 := by
  cases skip with
  | true =>
    simp only [mainRun, if_true, hr, Option.some.injEq, Prod.mk.injEq, Except.ok.injEq] at hm
    obtain ⟨ho, _⟩ := hm
    subst ho
    refine ⟨rfl, rfl, rfl, rfl, rfl, by norm_num⟩
  | false =>
    simp only [mainRun, if_false, Bool.false_eq_true] at hm
    cases hs : test_standard_loading stdEnv fuel with
    | none => rw [hs] at hm; cases hm
    | some p =>
      obtain ⟨se, sn, sk⟩ := p
      rw [hs] at hm
      cases se with
      | error e => cases hm
      | ok st =>
        rw [hr] at hm
        simp only [Option.some.injEq, Prod.mk.injEq, Except.ok.injEq] at hm
        obtain ⟨ho, _⟩ := hm
        subst ho
        refine ⟨rfl, rfl, ?_, ?_, rfl, by norm_num⟩
        · cases st <;> simp [report, resultsBlock]
        · cases st <;> simp [report, resultsBlock]

/-- Witness for C10: a candidate that answers its health check instantly
(elapsed exactly 0.0) is printed as FAILED, gets no speedup and exits
with code 1. -/
theorem c10_zero_elapsed_failure_witness :
    (report none (some 0)).runaiTime = some 0
    ∧ (report none (some 0)).runaiDisplay = none
    ∧ (report none (some 0)).speedup = none
    ∧ (report none (some 0)).timeSaved = none
    ∧ (report none (some 0)).exitCode = 1 ∧ (0 : ℚ) < 30 := by
  have hr : test_runai_loading ⟨true, fun _ => ReqOutcome.response 200 0, true⟩ 1
      = some (Except.ok (some 0), 1, false) :=
    test_standard_first_ready (fun _ => ReqOutcome.response 200 0) true 0 rfl
  have hm : mainRun true ⟨true, fun _ => ReqOutcome.connError 0, true⟩
      ⟨true, fun _ => ReqOutcome.response 200 0, true⟩ 1
      = some (Except.ok (report none (some 0)), 1) := by
    simp [mainRun, hr, spawnOf]
  exact c10_zero_elapsed_failure true ⟨true, fun _ => ReqOutcome.connError 0, true⟩
    ⟨true, fun _ => ReqOutcome.response 200 0, true⟩ 1 1 false
    (report none (some 0)) 1 hr hm

/-- Claim C1 fails as stated: a candidate run that finished ready with
elapsed time exactly 0.0 — under the 30-second threshold — still makes
the program print FAILED and exit with code 1, because
`if runai_time and runai_time < 30:` treats the float 0.0 as falsy. -/
theorem c1_counterexample :
    test_runai_loading ⟨true, fun _ => ReqOutcome.response 200 0, true⟩ 1
      = some (Except.ok (some 0), 1, false)
    ∧ fullMain ["model"] ⟨true, fun _ => ReqOutcome.response 200 5, true⟩
        ⟨true, fun _ => ReqOutcome.response 200 0, true⟩ 1
      = some (ProgTerm.finished (report (some 5) (some 0)), 2)
    ∧ (0 : ℚ) < 30
    ∧ progExitCode (ProgTerm.finished (report (some 5) (some 0))) = 1 := by
  have hstd : test_standard_loading ⟨true, fun _ => ReqOutcome.response 200 5, true⟩ 1
      = some (Except.ok (some 5), 1, false) :=
    test_standard_first_ready (fun _ => ReqOutcome.response 200 5) true 0 rfl
  have hrunai : test_runai_loading ⟨true, fun _ => ReqOutcome.response 200 0, true⟩ 1
      = some (Except.ok (some 0), 1, false) :=
    test_standard_first_ready (fun _ => ReqOutcome.response 200 0) true 0 rfl
  have hpa : parseArgs ["model"] = Except.ok ⟨"model", 32, false⟩ := by decide
  refine ⟨hrunai, ?_, by norm_num, ?_⟩
  · simp [fullMain, hpa, mainRun, hstd, hrunai, spawnOf]
  · norm_num [progExitCode, report, exitCodeOf]

/-- Claim C1 (amended): for every invocation that passes argument
parsing, the program exits with code 0 exactly when the candidate run
finished ready with a nonzero elapsed time strictly under 30 seconds;
in every other such case — candidate timeout, zero elapsed time, or a
process failure crashing the interpreter — it exits with code 1. -/
theorem c1_exit_code_amended (argv : List String) (stdEnv runaiEnv : ProcEnv) (fuel : Nat)
    (term : ProgTerm) (n : Nat)
    (h : fullMain argv stdEnv runaiEnv fuel = some (term, n))
    (hp : ∀ c, term ≠ ProgTerm.usageError c) :
    (progExitCode term = 0
      ↔ ∃ o e, term = ProgTerm.finished o ∧ o.runaiTime = some e ∧ e ≠ 0 ∧ e < 30)
    ∧ (progExitCode term = 0 ∨ progExitCode term = 1) := by
  cases hpa : parseArgs argv with
  | error c =>
    have hfull : fullMain argv stdEnv runaiEnv fuel = some (ProgTerm.usageError c, 0) := by
      simp [fullMain, hpa]
    have h2 := h.symm.trans hfull
    simp only [Option.some.injEq, Prod.mk.injEq] at h2
    exact absurd h2.1 (hp c)
  | ok args =>
    cases hm : mainRun args.skip_standard stdEnv runaiEnv fuel with
    | none =>
      have hfull : fullMain argv stdEnv runaiEnv fuel = none := by
        simp [fullMain, hpa, hm]
      cases hfull.symm.trans h
    | some p =>
      obtain ⟨r, m⟩ := p
      cases r with
      | error e =>
        have hfull : fullMain argv stdEnv runaiEnv fuel = some (ProgTerm.crashed, m) := by
          simp [fullMain, hpa, hm]
        have h2 := h.symm.trans hfull
        simp only [Option.some.injEq, Prod.mk.injEq] at h2
        obtain ⟨ht, _⟩ := h2
        subst ht
        refine ⟨⟨fun h0 => absurd h0 (by simp [progExitCode]), ?_⟩, Or.inr rfl⟩
        rintro ⟨o, e', ht, _⟩
        cases ht
      | ok o =>
        have hfull : fullMain argv stdEnv runaiEnv fuel = some (ProgTerm.finished o, m) := by
          simp [fullMain, hpa, hm]
        have h2 := h.symm.trans hfull
        simp only [Option.some.injEq, Prod.mk.injEq] at h2
        obtain ⟨ht, _⟩ := h2
        subst ht
        obtain ⟨st, rt, ho⟩ := mainRun_ok_report args.skip_standard stdEnv runaiEnv fuel o m hm
        subst ho
        cases rt with
        | none =>
          refine ⟨⟨fun h0 => absurd h0 (by simp [progExitCode, report, exitCodeOf]), ?_⟩,
            Or.inr (by simp [progExitCode, report, exitCodeOf])⟩
          rintro ⟨o', e', ht, hrt, _⟩
          cases ht
          simp [report] at hrt
        | some r =>
          by_cases hcond : r ≠ 0 ∧ r < 30
          · refine ⟨⟨fun _ => ⟨report st (some r), r, rfl, rfl, hcond.1, hcond.2⟩, fun _ => ?_⟩,
              Or.inl (by simp [progExitCode, report, exitCodeOf, hcond])⟩
            simp [progExitCode, report, exitCodeOf, hcond]
          · refine ⟨⟨fun h0 => absurd h0 (by simp [progExitCode, report, exitCodeOf, hcond]), ?_⟩,
              Or.inr (by simp [progExitCode, report, exitCodeOf, hcond])⟩
            rintro ⟨o', e', ht, hrt, he0, he30⟩
            cases ht
            simp only [report, Option.some.injEq] at hrt
            subst hrt
            exact (hcond ⟨he0, he30⟩).elim

/-- Witness for C1 (amended): both strategies ready after 5 seconds —
the candidate is nonzero and under 30 s, so the exit code is 0. -/
theorem c1_exit_code_amended_witness :
    (progExitCode (ProgTerm.finished (report (some 5) (some 5))) = 0
      ↔ ∃ o e, ProgTerm.finished (report (some 5) (some 5)) = ProgTerm.finished o
          ∧ o.runaiTime = some e ∧ e ≠ 0 ∧ e < 30)
    ∧ (progExitCode (ProgTerm.finished (report (some 5) (some 5))) = 0
        ∨ progExitCode (ProgTerm.finished (report (some 5) (some 5))) = 1) := by
  have hstd : test_standard_loading ⟨true, fun _ => ReqOutcome.response 200 5, true⟩ 1
      = some (Except.ok (some 5), 1, false) :=
    test_standard_first_ready (fun _ => ReqOutcome.response 200 5) true 0 rfl
  have hrunai : test_runai_loading ⟨true, fun _ => ReqOutcome.response 200 5, true⟩ 1
      = some (Except.ok (some 5), 1, false) := hstd
  have hpa : parseArgs ["model"] = Except.ok ⟨"model", 32, false⟩ := by decide
  have hm : fullMain ["model"] ⟨true, fun _ => ReqOutcome.response 200 5, true⟩
      ⟨true, fun _ => ReqOutcome.response 200 5, true⟩ 1
      = some (ProgTerm.finished (report (some 5) (some 5)), 2) := by
    simp [fullMain, hpa, mainRun, hstd, hrunai, spawnOf]
  exact c1_exit_code_amended ["model"] ⟨true, fun _ => ReqOutcome.response 200 5, true⟩
    ⟨true, fun _ => ReqOutcome.response 200 5, true⟩ 1
    (ProgTerm.finished (report (some 5) (some 5))) 2 hm
    (fun c hc => ProgTerm.noConfusion hc)

/-- Claim C9 fails as stated: an empty model source locator is not a
configuration error for argparse — the invocation with `model_path`
equal to the empty string parses fine, spawns both server processes and
runs the whole comparison instead of failing fast. -/
theorem c9_counterexample :
    parseArgs [""] = Except.ok ⟨"", 32, false⟩
    ∧ fullMain [""] ⟨true, fun _ => ReqOutcome.response 200 5, true⟩
        ⟨true, fun _ => ReqOutcome.response 200 5, true⟩ 1
      = some (ProgTerm.finished (report (some 5) (some 5)), 2)
    ∧ (2 : Nat) ≠ 0 := by
  have hstd : test_standard_loading ⟨true, fun _ => ReqOutcome.response 200 5, true⟩ 1
      = some (Except.ok (some 5), 1, false) :=
    test_standard_first_ready (fun _ => ReqOutcome.response 200 5) true 0 rfl
  have hrunai : test_runai_loading ⟨true, fun _ => ReqOutcome.response 200 5, true⟩ 1
      = some (Except.ok (some 5), 1, false) := hstd
  have hpa : parseArgs [""] = Except.ok ⟨"", 32, false⟩ := by decide
  refine ⟨hpa, ?_, by norm_num⟩
  simp [fullMain, hpa, mainRun, hstd, hrunai, spawnOf]

/-- Claim C9 (amended): a missing model source argument is rejected by
argument parsing, which fails fast with exit code 2 before any server
process is spawned; an empty model source string, however, is accepted
and does not halt the program; and besides argument-parsing errors,
only an uncaught process-launch exception can halt the whole comparison
— whenever both launches succeed, the run always reaches a completed
report. -/
theorem c9_config_error_fail_fast :
    (∀ (stdEnv runaiEnv : ProcEnv) (fuel : Nat),
        fullMain [] stdEnv runaiEnv fuel = some (ProgTerm.usageError 2, 0))
    ∧ parseArgs [""] = Except.ok ⟨"", 32, false⟩
    ∧ (∀ (argv : List String) (args : Args) (stdEnv runaiEnv : ProcEnv)
          (fuel : Nat) (term : ProgTerm) (n : Nat),
        parseArgs argv = Except.ok args →
        stdEnv.launchOk = true → runaiEnv.launchOk = true →
        fullMain argv stdEnv runaiEnv fuel = some (term, n) →
          ∃ o, term = ProgTerm.finished o) := by
  refine ⟨fun _ _ _ => rfl, by decide, ?_⟩
  intro argv args stdEnv runaiEnv fuel term n hpa hs hr h
  cases hm : mainRun args.skip_standard stdEnv runaiEnv fuel with
  | none =>
    have hfull : fullMain argv stdEnv runaiEnv fuel = none := by
      simp [fullMain, hpa, hm]
    cases hfull.symm.trans h
  | some p =>
    obtain ⟨r, m⟩ := p
    obtain ⟨o, ho⟩ := mainRun_launchOk args.skip_standard stdEnv runaiEnv fuel r m hs hr hm
    subst ho
    have hfull : fullMain argv stdEnv runaiEnv fuel = some (ProgTerm.finished o, m) := by
      simp [fullMain, hpa, hm]
    have h2 := h.symm.trans hfull
    simp only [Option.some.injEq, Prod.mk.injEq] at h2
    exact ⟨o, h2.1⟩

/-- Witness for C9 (amended): invoking the script with no arguments at
all fails fast in argument parsing, exiting with code 2 before any
process is spawned. -/
theorem c9_config_error_fail_fast_witness :
    fullMain [] ⟨true, fun _ => ReqOutcome.connError 0, true⟩
      ⟨true, fun _ => ReqOutcome.connError 0, true⟩ 1
      = some (ProgTerm.usageError 2, 0) :=
  c9_config_error_fail_fast.1 ⟨true, fun _ => ReqOutcome.connError 0, true⟩
    ⟨true, fun _ => ReqOutcome.connError 0, true⟩ 1

end Benchmark
